import Mathlib

/-!
Shallow embedding of the event data model of the bluecherry-client repository
(src/src/core/EventData.cpp), together with theorems settling the frozen
claims about it.

Modelling conventions:
* QString is modelled as Lean's String; QString::number(int) as Int.repr.
* QDateTime is modelled as a wall-clock second count together with a time
  spec, mirroring Qt's representation (Qt stores the displayed date/time and
  a Qt::TimeSpec).  The offset of the local time zone is not fixed by Qt's
  API, so operations that depend on it (toLocalTime, epoch conversion) take
  it as an explicit parameter tz (in seconds).
* QApplication::translate returns its source text when no translation is
  installed; it is modelled as the identity on the source text.
* Functions whose C++ bodies may emit qWarning diagnostics are embedded as
  returning a pair of the result and the list of emitted diagnostic lines;
  a body with no logging statement always returns an empty list.
* C++ int division and remainder (truncating) are modelled with Int.tdiv
  and Int.tmod.
-/

/-- Qt::TimeSpec as used by the code: local time, UTC, or a fixed offset
from UTC (the spec produced by QDateTime::setUtcOffset). -/
inductive QtTimeSpec where
  | LocalTime : QtTimeSpec
  | UTC : QtTimeSpec
  | OffsetFromUTC : Int → QtTimeSpec
  deriving DecidableEq, Repr

/-- Model of QDateTime: the wall-clock date and time flattened to a second
count, plus the time spec under which that wall clock is interpreted. -/
structure QDateTime where
  wallSecs : Int
  spec : QtTimeSpec
  deriving DecidableEq, Repr

/-- The UTC offset (in seconds) a QDateTime with the given spec displays at,
given the local zone's offset tz (in seconds). -/
def QtTimeSpec.utcOffset (tz : Int) : QtTimeSpec → Int
  | QtTimeSpec.LocalTime => tz
  | QtTimeSpec.UTC => 0
  | QtTimeSpec.OffsetFromUTC o => o

/-- The absolute instant (seconds since the epoch, UTC) a QDateTime denotes,
given the local zone's offset tz. -/
def QDateTime.toEpochSecs (tz : Int) (dt : QDateTime) : Int :=
  dt.wallSecs - dt.spec.utcOffset tz

/-- QDateTime::addSecs: shifts the instant, keeping the spec.  In the
wall-clock representation both the instant and the wall clock advance. -/
def QDateTime.addSecs (dt : QDateTime) (s : Int) : QDateTime :=
  { dt with wallSecs := dt.wallSecs + s }

/-- QDateTime::toLocalTime: the same instant re-expressed in the local zone
whose offset is tz. -/
def QDateTime.toLocalTime (tz : Int) (dt : QDateTime) : QDateTime :=
  { wallSecs := dt.toEpochSecs tz + tz, spec := QtTimeSpec.LocalTime }

/-- QDateTime::setUtcOffset: keeps the displayed date and time and makes the
spec a fixed offset from UTC. -/
def QDateTime.setUtcOffset (dt : QDateTime) (off : Int) : QDateTime :=
  { dt with spec := QtTimeSpec.OffsetFromUTC off }

/-- QDateTime::timeSpec. -/
def QDateTime.timeSpec (dt : QDateTime) : QtTimeSpec :=
  dt.spec

/-- QApplication::translate with no installed translation: returns the
source text unchanged. -/
def qAppTranslate (_context : String) (sourceText : String) : String :=
  sourceText

/-- QString::number(int): decimal representation. -/
def qStringNumber (n : Int) : String :=
  n.repr

/-- Model of QString::toUInt (base 10): succeeds exactly on a nonempty
digit string, optionally preceded by a plus sign (accepted by Qt's C-locale
parser, so "+12" parses to 12 with ok = true), whose value fits in an
unsigned 32-bit int, returning the value; Qt sets *ok to false and returns
0 otherwise.  (Locale-specific whitespace tolerance is not modelled; no
claim exercises it.) -/
def qStringToUInt (s : String) : Option Nat :=
  let ds :=
    match s.data with
    | '+' :: rest => rest
    | cs => cs
  if ds ≠ [] ∧ ds.all Char.isDigit = true ∧ digitsVal ds ≤ 4294967295
  then some (digitsVal ds) else none
where
  digitsVal (cs : List Char) : Nat := cs.foldl (fun a c => 10 * a + (c.toNat - 48)) 0

/-- QString::isEmpty: the string has no characters. -/
def qtStringIsEmpty (s : String) : Bool :=
  s.data.isEmpty

/-- QString::startsWith: the needle's characters are an initial segment of
the subject's. -/
def qtStringStartsWith (s p : String) : Bool :=
  decide (s.data.take p.data.length = p.data)

/-- QString::mid(pos): the substring from character position pos to the
end. -/
def qtStringMid (s : String) (pos : Nat) : String :=
  ⟨s.data.drop pos⟩

/-- Conversion of a C++ unsigned int value to int (two's complement), as in
the assignment of QString::toUInt's result to the int member m_locationId. -/
def uintAsInt (n : Nat) : Int :=
  if n < 2147483648 then (n : Int) else (n : Int) - 4294967296

/-- EventLevel's level enumeration, from the switch in
EventLevel::uiString and the assignments in EventLevel::operator=
(the class declaration lives in EventData.h, outside the excerpt). -/
inductive EventLevel where
  | Info : EventLevel
  | Warning : EventLevel
  | Alarm : EventLevel
  | Critical : EventLevel
  deriving DecidableEq, Repr

/-- EventLevel::uiString (EventData.cpp lines 27-37). -/
def EventLevel.uiString : EventLevel → String
  | EventLevel.Info => qAppTranslate "EventLevel" "Info"
  | EventLevel.Warning => qAppTranslate "EventLevel" "Warning"
  | EventLevel.Alarm => qAppTranslate "EventLevel" "Alarm"
  | EventLevel.Critical => qAppTranslate "EventLevel" "Critical"

/-- EventLevel::operator=(const QString &) (EventData.cpp lines 51-65).
The second component is the list of diagnostic log lines the body emits;
the body contains no logging statement, so it is always empty. -/
def EventLevel.assign (str : String) : EventLevel × List String :=
  if str = "info" then (EventLevel.Info, [])
  else if str = "warn" then (EventLevel.Warning, [])
  else if str = "alrm" ∨ str = "alarm" then (EventLevel.Alarm, [])
  else if str = "critical" then (EventLevel.Critical, [])
  else (EventLevel.Info, [])

/-- EventType's type enumeration, from the switch in EventType::uiString
and the assignments in EventType::operator= (the class declaration lives in
EventData.h, outside the excerpt). -/
inductive EventType where
  | UnknownType : EventType
  | CameraMotion : EventType
  | CameraContinuous : EventType
  | CameraNotFound : EventType
  | CameraVideoLost : EventType
  | CameraAudioLost : EventType
  | SystemDiskSpace : EventType
  | SystemCrash : EventType
  | SystemBoot : EventType
  | SystemShutdown : EventType
  | SystemReboot : EventType
  | SystemPowerOutage : EventType
  deriving DecidableEq, Repr

/-- EventType::uiString (EventData.cpp lines 67-86). -/
def EventType.uiString : EventType → String
  | EventType.CameraMotion => qAppTranslate "EventType" "Motion"
  | EventType.CameraContinuous => qAppTranslate "EventType" "Continuous"
  | EventType.CameraNotFound => qAppTranslate "EventType" "Not Found"
  | EventType.CameraVideoLost => qAppTranslate "EventType" "Video Lost"
  | EventType.CameraAudioLost => qAppTranslate "EventType" "Audio Lost"
  | EventType.SystemDiskSpace => qAppTranslate "EventType" "Disk Space"
  | EventType.SystemCrash => qAppTranslate "EventType" "Crash"
  | EventType.SystemBoot => qAppTranslate "EventType" "Startup"
  | EventType.SystemShutdown => qAppTranslate "EventType" "Shutdown"
  | EventType.SystemReboot => qAppTranslate "EventType" "Reboot"
  | EventType.SystemPowerOutage => qAppTranslate "EventType" "Power Lost"
  | EventType.UnknownType => qAppTranslate "EventType" "Unknown"

/-- EventType::operator=(const QString &) (EventData.cpp lines 88-116).
The second component is the list of diagnostic log lines the body emits;
the body contains no logging statement, so it is always empty. -/
def EventType.assign (str : String) : EventType × List String :=
  if str = "motion" then (EventType.CameraMotion, [])
  else if str = "continuous" then (EventType.CameraContinuous, [])
  else if str = "not found" then (EventType.CameraNotFound, [])
  else if str = "video signal loss" then (EventType.CameraVideoLost, [])
  else if str = "audio signal loss" then (EventType.CameraAudioLost, [])
  else if str = "disk-space" then (EventType.SystemDiskSpace, [])
  else if str = "crash" then (EventType.SystemCrash, [])
  else if str = "boot" then (EventType.SystemBoot, [])
  else if str = "shutdown" then (EventType.SystemShutdown, [])
  else if str = "reboot" then (EventType.SystemReboot, [])
  else if str = "power-outage" then (EventType.SystemPowerOutage, [])
  else (EventType.UnknownType, [])

/-- The EventData value object's data members, from the setters and getters
used in EventData.cpp (the declaration lives in EventData.h, outside the
excerpt).  The non-owning DVRServer back-reference is omitted: no claim
concerns it and it only serves display lookups. -/
structure EventData where
  m_eventId : Int
  m_mediaId : Int
  m_level : EventLevel
  m_type : EventType
  m_utcStartDate : QDateTime
  m_localStartDate : QDateTime
  m_durationInSeconds : Int
  m_locationId : Int
  m_serverDateTzOffsetMins : Int
  deriving DecidableEq, Repr

/-- Accessor durationInSeconds(), a header-inline field read. -/
def EventData.durationInSeconds (e : EventData) : Int :=
  e.m_durationInSeconds

/-- Accessor serverDateTzOffsetMins(), a header-inline field read. -/
def EventData.serverDateTzOffsetMins (e : EventData) : Int :=
  e.m_serverDateTzOffsetMins

/-- Accessor locationId(), a header-inline field read. -/
def EventData.locationId (e : EventData) : Int :=
  e.m_locationId

/-- Accessor localStartDate(), a header-inline field read. -/
def EventData.localStartDate (e : EventData) : QDateTime :=
  e.m_localStartDate

/-- EventData::localEndDate (EventData.cpp lines 118-121). -/
def EventData.localEndDate (e : EventData) : QDateTime :=
  e.m_localStartDate.addSecs (max 0 e.m_durationInSeconds)

/-- EventData::serverStartDate (EventData.cpp lines 123-131).  The body
begins with Q_ASSERT(m_utcStartDate.timeSpec() == Qt::UTC); the theorems
below carry that precondition as a hypothesis. -/
def EventData.serverStartDate (e : EventData) : QDateTime :=
  let dateTzOffsetSeconds : Int := e.serverDateTzOffsetMins * 60
  let result := e.m_utcStartDate.addSecs dateTzOffsetSeconds
  result.setUtcOffset dateTzOffsetSeconds

/-- EventData::hasDuration (EventData.cpp lines 150-153). -/
def EventData.hasDuration (e : EventData) : Bool :=
  decide (e.durationInSeconds > 0)

/-- EventData::serverEndDate (EventData.cpp lines 133-142).  The C++ body
evaluates result.addSecs(qMax(0, m_durationInSeconds)) and discards the
returned value (QDateTime::addSecs is const), then returns result. -/
def EventData.serverEndDate (e : EventData) : QDateTime :=
  let result := e.serverStartDate
  if !e.hasDuration then result
  else
    let _discarded := result.addSecs (max 0 e.m_durationInSeconds)
    result

/-- EventData::setUtcStartDate (EventData.cpp lines 144-148); tz is the
local zone offset QDateTime::toLocalTime converts into. -/
def EventData.setUtcStartDate (tz : Int) (e : EventData) (utcStartDate : QDateTime) : EventData :=
  { e with m_utcStartDate := utcStartDate,
           m_localStartDate := utcStartDate.toLocalTime tz }

/-- EventData::setDurationInSeconds (EventData.cpp lines 155-161). -/
def EventData.setDurationInSeconds (e : EventData) (durationInSeconds : Int) : EventData :=
  if durationInSeconds < -1 then { e with m_durationInSeconds := -1 }
  else { e with m_durationInSeconds := durationInSeconds }

/-- EventData::inProgress (EventData.cpp lines 163-166). -/
def EventData.inProgress (e : EventData) : Bool :=
  decide (e.durationInSeconds < 0)

/-- EventData::setInProgress (EventData.cpp lines 168-171). -/
def EventData.setInProgress (e : EventData) : EventData :=
  e.setDurationInSeconds (-1)

/-- EventData::setServerDateTzOffsetMins (EventData.cpp lines 198-201). -/
def EventData.setServerDateTzOffsetMins (e : EventData) (dateTzOffsetMins : Int) : EventData :=
  { e with m_serverDateTzOffsetMins := dateTzOffsetMins }

/-- EventData::setLocation (EventData.cpp lines 203-223).  The pair's second
component is the list of qWarning lines emitted.  On a camera- prefix the
C++ first stores toUInt's result (0 on failure, converted uint to int) and
overwrites it with -1 when parsing failed, which nets to the match below. -/
def EventData.setLocation (e : EventData) (location : String) : EventData × List String :=
  if qtStringStartsWith location "camera-" then
    match qStringToUInt (qtStringMid location 7) with
    | some n => ({ e with m_locationId := uintAsInt n }, [])
    | none => ({ e with m_locationId := -1 }, ["Invalid event location " ++ location])
  else if location ≠ "system" then
    ({ e with m_locationId := -1 }, ["Invalid event location " ++ location])
  else
    ({ e with m_locationId := -1 }, [])

/-- The static helper durationWord (EventData.cpp lines 266-275): appends
a separator (when s is nonempty), the number, a space, the unit word, and a
plural s when n is not 1. -/
def durationWord (s : String) (n : Int) (w : String) : String :=
  let s1 := if qtStringIsEmpty s then s else s ++ ", "
  let s2 := ((s1 ++ qStringNumber n) ++ " ") ++ w
  if n ≠ 1 then s2 ++ "s" else s2

/-- Tail of EventData::uiDuration after the day and hour blocks: the
seconds block (EventData.cpp lines 305-306), entered only when fewer than
two unit words were emitted. -/
def EventData.uiDurationSecondsPart (re : String) (d : Int) : String :=
  if d ≠ 0 ∨ qtStringIsEmpty re then durationWord re d "second" else re

/-- Tail of EventData::uiDuration after the day and hour blocks: the minute
block (EventData.cpp lines 298-304) with its early return when the unit
count reaches 2, then the seconds block.  re is the string built so far, d
the remaining seconds, count the number of unit words already emitted. -/
def EventData.uiDurationMinutePart (re : String) (d : Int) (count : Nat) : String :=
  if d ≥ 60 then
    if count + 1 = 2 then durationWord re (d.tdiv 60) "minute"
    else EventData.uiDurationSecondsPart (durationWord re (d.tdiv 60) "minute") (d.tmod 60)
  else EventData.uiDurationSecondsPart re d

/-- Tail of EventData::uiDuration after the day block: the hour block
(EventData.cpp lines 291-297) with its early return when the unit count
reaches 2, then the minute and seconds blocks. -/
def EventData.uiDurationHourPart (re : String) (d : Int) (count : Nat) : String :=
  if d ≥ (60*60) then
    if count + 1 = 2 then durationWord re (d.tdiv (60*60)) "hour"
    else EventData.uiDurationMinutePart (durationWord re (d.tdiv (60*60)) "hour") (d.tmod (60*60)) (count + 1)
  else EventData.uiDurationMinutePart re d count

/-- EventData::uiDuration (EventData.cpp lines 277-309).  The in-progress
check, the clamp d = qMax(1, durationInSeconds()), the day block (which
cannot trigger an early return since count is then only 1), then the hour,
minute and seconds blocks via the helpers above.  Early returns are
translated as nested conditionals. -/
def EventData.uiDuration (e : EventData) : String :=
  if e.inProgress then qAppTranslate "EventData" "In progress"
  else if max 1 e.durationInSeconds ≥ (60*60*24) then
    EventData.uiDurationHourPart
      (durationWord "" ((max 1 e.durationInSeconds).tdiv (60*60*24)) "day")
      ((max 1 e.durationInSeconds).tmod (60*60*24)) 1
  else
    EventData.uiDurationHourPart "" (max 1 e.durationInSeconds) 0

/-- Number of comma characters in a string; a rendered duration with k unit
terms contains exactly k - 1 commas, so at most two terms means at most one
comma. -/
def commaCount (s : String) : Nat :=
  s.data.count ','

/-- A concrete baseline EventData value used to state closed theorems. -/
def initEvent : EventData :=
  { m_eventId := 0
    m_mediaId := 0
    m_level := EventLevel.Info
    m_type := EventType.UnknownType
    m_utcStartDate := { wallSecs := 0, spec := QtTimeSpec.UTC }
    m_localStartDate := { wallSecs := 0, spec := QtTimeSpec.LocalTime }
    m_durationInSeconds := -1
    m_locationId := -1
    m_serverDateTzOffsetMins := 0 }

/-- A concrete event whose stored duration is d, for closed statements. -/
def eventWithDuration (d : Int) : EventData :=
  initEvent.setDurationInSeconds d

/-! Helper lemmas: comma counting in rendered strings.  A rendered duration
with k unit terms contains exactly k - 1 separators and each separator is
the only source of commas, so bounding terms reduces to counting commas. -/

theorem commaCount_append (a b : String) :
    commaCount (a ++ b) = commaCount a + commaCount b := by
  simp [commaCount, String.data_append, List.count_append]

theorem digitChar_ne_comma : ∀ m < 16, Nat.digitChar m ≠ ',' := by decide

theorem toDigitsCore_ne_comma :
    ∀ (fuel n : Nat) (acc : List Char), (∀ c ∈ acc, c ≠ ',') →
      ∀ c ∈ Nat.toDigitsCore 10 fuel n acc, c ≠ ',' := by
  intro fuel
  induction fuel with
  | zero =>
    intro n acc hacc c hc
    exact hacc c hc
  | succ f ih =>
    intro n acc hacc c hc
    have hd : Nat.digitChar (n % 10) ≠ ',' :=
      digitChar_ne_comma _ (Nat.lt_trans (Nat.mod_lt _ (by norm_num)) (by norm_num))
    simp only [Nat.toDigitsCore] at hc
    by_cases h10 : n / 10 = 0
    · rw [if_pos h10] at hc
      rcases List.mem_cons.mp hc with h | h
      · exact h ▸ hd
      · exact hacc c h
    · rw [if_neg h10] at hc
      refine ih (n / 10) _ ?_ c hc
      intro c2 hc2
      rcases List.mem_cons.mp hc2 with h | h
      · exact h ▸ hd
      · exact hacc c2 h

theorem commaCount_natRepr (n : Nat) : commaCount (Nat.repr n) = 0 := by
  have h : ∀ c ∈ Nat.toDigits 10 n, c ≠ ',' :=
    toDigitsCore_ne_comma (n + 1) n [] (by intro c hc; cases hc)
  have hdata : (Nat.repr n).data = Nat.toDigits 10 n := rfl
  simp only [commaCount, hdata]
  exact List.count_eq_zero.mpr fun hmem => h ',' hmem rfl

theorem commaCount_qStringNumber (n : Int) : commaCount (qStringNumber n) = 0 := by
  cases n with
  | ofNat m =>
    simpa [qStringNumber, Int.repr] using commaCount_natRepr m
  | negSucc m =>
    have hminus : commaCount "-" = 0 := by decide
    simp [qStringNumber, Int.repr, commaCount_append, commaCount_natRepr, hminus]

theorem durationWord_data_ne_nil (s : String) (n : Int) (w : String) :
    (durationWord s n w).data ≠ [] := by
  have hsp : ((" " : String)).data = [' '] := rfl
  simp only [durationWord]
  split_ifs <;> simp [String.data_append, hsp]

theorem qtStringIsEmpty_durationWord (s : String) (n : Int) (w : String) :
    qtStringIsEmpty (durationWord s n w) = false := by
  have h := durationWord_data_ne_nil s n w
  cases hl : (durationWord s n w).data with
  | nil => exact absurd hl h
  | cons a t => simp [qtStringIsEmpty, hl]

theorem commaCount_durationWord (s : String) (n : Int) (w : String) :
    commaCount (durationWord s n w) =
      commaCount s + commaCount w + (if qtStringIsEmpty s then 0 else 1) := by
  have hsep : commaCount ", " = 1 := by decide
  have hsp : commaCount " " = 0 := by decide
  have hs2 : commaCount "s" = 0 := by decide
  simp only [durationWord]
  split_ifs with h1 h2 <;>
    simp [commaCount_append, commaCount_qStringNumber, hsep, hsp, hs2, h1] <;>
    omega


theorem commaCount_secondsPart_empty (d : Int) :
    commaCount (EventData.uiDurationSecondsPart "" d) = 0 := by
  have h : d ≠ 0 ∨ qtStringIsEmpty "" = true := Or.inr rfl
  unfold EventData.uiDurationSecondsPart
  rw [if_pos h, commaCount_durationWord]
  decide

theorem commaCount_secondsPart_nonempty (re : String) (d : Int)
    (he : qtStringIsEmpty re = false) :
    commaCount (EventData.uiDurationSecondsPart re d) ≤ commaCount re + 1 := by
  have hsec : commaCount "second" = 0 := by decide
  unfold EventData.uiDurationSecondsPart
  split_ifs with h
  · rw [commaCount_durationWord, he, hsec]
    simp
  · omega

theorem commaCount_minutePart_empty (d : Int) :
    commaCount (EventData.uiDurationMinutePart "" d 0) ≤ 1 := by
  unfold EventData.uiDurationMinutePart
  split_ifs with h1 h2
  · exact absurd h2 (by decide)
  · have h3 := commaCount_secondsPart_nonempty (durationWord "" (d.tdiv 60) "minute")
      (d.tmod 60) (qtStringIsEmpty_durationWord _ _ _)
    have h4 := commaCount_durationWord "" (d.tdiv 60) "minute"
    have h5 : commaCount "" + commaCount "minute" + (if qtStringIsEmpty "" then 0 else 1) = 0 := by
      decide
    omega
  · rw [commaCount_secondsPart_empty]
    omega

theorem commaCount_minutePart_one (re : String) (d : Int)
    (h0 : commaCount re = 0) (he : qtStringIsEmpty re = false) :
    commaCount (EventData.uiDurationMinutePart re d 1) ≤ 1 := by
  unfold EventData.uiDurationMinutePart
  split_ifs with h1 h2
  · rw [commaCount_durationWord, he, h0]
    have hw : commaCount "minute" = 0 := by decide
    simp [hw]
  · exact absurd rfl h2
  · have h3 := commaCount_secondsPart_nonempty re d he
    omega

theorem commaCount_hourPart_empty (d : Int) :
    commaCount (EventData.uiDurationHourPart "" d 0) ≤ 1 := by
  unfold EventData.uiDurationHourPart
  split_ifs with h1 h2
  · exact absurd h2 (by decide)
  · refine commaCount_minutePart_one _ _ ?_ (qtStringIsEmpty_durationWord _ _ _)
    rw [commaCount_durationWord]
    decide
  · exact commaCount_minutePart_empty d

theorem commaCount_hourPart_one (re : String) (d : Int)
    (h0 : commaCount re = 0) (he : qtStringIsEmpty re = false) :
    commaCount (EventData.uiDurationHourPart re d 1) ≤ 1 := by
  unfold EventData.uiDurationHourPart
  split_ifs with h1 h2
  · rw [commaCount_durationWord, he, h0]
    have hw : commaCount "hour" = 0 := by decide
    simp [hw]
  · exact absurd rfl h2
  · exact commaCount_minutePart_one re d h0 he

/-- Claim C1, counterexample: a stored duration of 0 seconds does not format
as the string of 0 seconds; uiDuration clamps the duration to at least 1
with qMax(1, durationInSeconds()) before formatting. -/
theorem uiDuration_zero_not_zero_seconds :
    (eventWithDuration 0).uiDuration ≠ "0 seconds" := by
  decide

/-- Claim C1 as amended: for boundary duration values of a not-in-progress
event, uiDuration formats 0 stored seconds as the string of 1 second (the
duration is clamped to a minimum of 1 second before formatting), 90 seconds
as 1 minute and 30 seconds, and 86400 seconds as 1 day, with correct
pluralization and unit selection. -/
theorem uiDuration_boundary_values :
    (eventWithDuration 0).inProgress = false ∧
      (eventWithDuration 0).uiDuration = "1 second" ∧
      (eventWithDuration 90).inProgress = false ∧
      (eventWithDuration 90).uiDuration = "1 minute, 30 seconds" ∧
      (eventWithDuration 86400).inProgress = false ∧
      (eventWithDuration 86400).uiDuration = "1 day" := by
  decide

/-- Claim C4: the stored duration is never below -1: setDurationInSeconds
stores max(d, -1), so the stored value is at least -1; setInProgress stores
-1; and inProgress holds exactly for negative stored durations. -/
theorem setDuration_clamped_and_inProgress (e : EventData) (d : Int) :
    (e.setDurationInSeconds d).m_durationInSeconds = max d (-1) ∧
      (-1 : Int) ≤ (e.setDurationInSeconds d).m_durationInSeconds ∧
      (e.setInProgress).m_durationInSeconds = -1 ∧
      (e.inProgress = true ↔ e.m_durationInSeconds < 0) := by
  refine ⟨?_, ?_, ?_, ?_⟩
  · unfold EventData.setDurationInSeconds
    split_ifs with h
    · simp
      omega
    · simp
      omega
  · unfold EventData.setDurationInSeconds
    split_ifs with h
    · simp
    · simp
      omega
  · unfold EventData.setInProgress EventData.setDurationInSeconds
    norm_num
  · simp [EventData.inProgress, EventData.durationInSeconds]

/-- Claim C5: serverEndDate returns the same value as serverStartDate for
every event, because the statement adding the duration discards the value
returned by addSecs, so the duration never affects the result. -/
theorem serverEndDate_eq_serverStartDate (e : EventData) :
    e.serverEndDate = e.serverStartDate := by
  unfold EventData.serverEndDate
  split_ifs <;> rfl

/-- Claim C6: each recognized level code assigned through
EventLevel::operator= renders through uiString to its display name, and
each recognized type code assigned through EventType::operator= renders
through uiString to its display name. -/
theorem level_type_codes_roundtrip :
    ((EventLevel.assign "info").1.uiString = "Info" ∧
      (EventLevel.assign "warn").1.uiString = "Warning" ∧
      (EventLevel.assign "alrm").1.uiString = "Alarm" ∧
      (EventLevel.assign "critical").1.uiString = "Critical") ∧
    ((EventType.assign "motion").1.uiString = "Motion" ∧
      (EventType.assign "continuous").1.uiString = "Continuous" ∧
      (EventType.assign "not found").1.uiString = "Not Found" ∧
      (EventType.assign "video signal loss").1.uiString = "Video Lost" ∧
      (EventType.assign "audio signal loss").1.uiString = "Audio Lost" ∧
      (EventType.assign "disk-space").1.uiString = "Disk Space" ∧
      (EventType.assign "crash").1.uiString = "Crash" ∧
      (EventType.assign "boot").1.uiString = "Startup" ∧
      (EventType.assign "shutdown").1.uiString = "Shutdown" ∧
      (EventType.assign "reboot").1.uiString = "Reboot" ∧
      (EventType.assign "power-outage").1.uiString = "Power Lost") := by
  decide

/-- Claim C9: hasDuration holds exactly for strictly positive stored
durations and inProgress exactly for strictly negative ones, so an event
with stored duration 0 is neither in progress nor has a duration, and its
local end date equals its local start date. -/
theorem zero_duration_event_properties (e : EventData) :
    (e.hasDuration = true ↔ 0 < e.m_durationInSeconds) ∧
      (e.inProgress = true ↔ e.m_durationInSeconds < 0) ∧
      (e.m_durationInSeconds = 0 →
        e.hasDuration = false ∧ e.inProgress = false ∧
          e.localEndDate = e.m_localStartDate) := by
  refine ⟨?_, ?_, ?_⟩
  · simp [EventData.hasDuration, EventData.durationInSeconds]
  · simp [EventData.inProgress, EventData.durationInSeconds]
  · intro h0
    refine ⟨?_, ?_, ?_⟩
    · simp [EventData.hasDuration, EventData.durationInSeconds, h0]
    · simp [EventData.inProgress, EventData.durationInSeconds, h0]
    · simp [EventData.localEndDate, QDateTime.addSecs, h0]

/-- Witness for claim C9 at a concrete event with stored duration 0. -/
theorem zero_duration_event_properties_witness :
    (eventWithDuration 0).hasDuration = false ∧
      (eventWithDuration 0).inProgress = false ∧
      (eventWithDuration 0).localEndDate = (eventWithDuration 0).m_localStartDate :=
  (zero_duration_event_properties (eventWithDuration 0)).2.2 (by decide)

/-- Claim C2, counterexample: assigning an unrecognized string through
EventLevel::operator= degrades to Info but emits no diagnostic log line
(the body contains no logging statement), contradicting the claim that each
of the three parsers logs. -/
theorem eventLevel_unrecognized_emits_no_log :
    (EventLevel.assign "bogus").1 = EventLevel.Info ∧
      (EventLevel.assign "bogus").2 = [] := by
  decide

/-- Claim C2 as amended: for every input string not among the recognized
codes, parsing an event level, an event type, or a location degrades
gracefully to the default value (Info, UnknownType and -1 respectively);
only setLocation emits a diagnostic log line, the level and type
assignments emit none; no exception or fatal path is taken (all three are
total functions). -/
theorem parse_failures_default_gracefully (s : String) :
    (s ∉ ["info", "warn", "alrm", "alarm", "critical"] →
      EventLevel.assign s = (EventLevel.Info, [])) ∧
    (s ∉ ["motion", "continuous", "not found", "video signal loss",
        "audio signal loss", "disk-space", "crash", "boot", "shutdown",
        "reboot", "power-outage"] →
      EventType.assign s = (EventType.UnknownType, [])) ∧
    ((qtStringStartsWith s "camera-" = false ∨
        qStringToUInt (qtStringMid s 7) = none) → s ≠ "system" →
      ∀ e : EventData,
        e.setLocation s = ({ e with m_locationId := -1 },
          ["Invalid event location " ++ s])) := by
  refine ⟨?_, ?_, ?_⟩
  · intro h
    simp only [List.mem_cons, List.not_mem_nil, or_false] at h
    push_neg at h
    obtain ⟨h1, h2, h3, h4, h5⟩ := h
    simp [EventLevel.assign, h1, h2, h3, h4, h5]
  · intro h
    simp only [List.mem_cons, List.not_mem_nil, or_false] at h
    push_neg at h
    obtain ⟨h1, h2, h3, h4, h5, h6, h7, h8, h9, h10, h11⟩ := h
    simp [EventType.assign, h1, h2, h3, h4, h5, h6, h7, h8, h9, h10, h11]
  · rintro (hsw | hn) hne e
    · simp [EventData.setLocation, hsw, hne]
    · by_cases hsw : qtStringStartsWith s "camera-" = true
      · simp [EventData.setLocation, hsw, hn]
      · rw [Bool.not_eq_true] at hsw
        simp [EventData.setLocation, hsw, hne]

/-- Witness for claim C2 at concrete unrecognized input strings, one of
them carrying the camera- prefix with an unparsable suffix. -/
theorem parse_failures_default_gracefully_witness :
    EventLevel.assign "bogus" = (EventLevel.Info, []) ∧
      EventType.assign "bogus" = (EventType.UnknownType, []) ∧
      initEvent.setLocation "bogus" = ({ initEvent with m_locationId := -1 },
        ["Invalid event location " ++ "bogus"]) ∧
      initEvent.setLocation "camera-abc" = ({ initEvent with m_locationId := -1 },
        ["Invalid event location " ++ "camera-abc"]) := by
  have h := parse_failures_default_gracefully "bogus"
  have hcam := parse_failures_default_gracefully "camera-abc"
  exact ⟨h.1 (by decide), h.2.1 (by decide),
    h.2.2 (Or.inl (by decide)) (by decide) initEvent,
    hcam.2.2 (Or.inr (by decide)) (by decide) initEvent⟩

/-- Claim C3, counterexample: camera-4294967295 is a camera-<n> string whose
suffix QString::toUInt accepts, yet setLocation does not store the camera's
numeric location id 4294967295: the uint value wraps through the int member
to -1 — the system-level marker — and no warning is logged. -/
theorem setLocation_uint_wrap_not_camera_id :
    (initEvent.setLocation "camera-4294967295").1.m_locationId ≠ (4294967295 : Int) ∧
      (initEvent.setLocation "camera-4294967295").1.m_locationId = -1 ∧
      (initEvent.setLocation "camera-4294967295").2 = [] := by
  decide

/-- Claim C3 as amended: setLocation parses exactly the strings of the form
camera-<suffix> whose suffix QString::toUInt accepts (an optionally
plus-signed digit string with value at most 4294967295) and the literal
system string (yielding -1, the system-level marker, silently).  An
accepted suffix value is stored through the int member by two's-complement
wrap: values below 2^31 yield the camera's numeric location id, larger
values silently yield the wrapped negative value (camera-4294967295 stores
-1).  For every other input, including a camera- prefix with a malformed
numeric suffix, it sets the location id to -1 and logs a warning. -/
theorem setLocation_parses_camera_and_system (e : EventData) (s : String) :
    (qtStringStartsWith s "camera-" = true →
      ∀ n : Nat, qStringToUInt (qtStringMid s 7) = some n →
        (n < 2147483648 →
          e.setLocation s = ({ e with m_locationId := (n : Int) }, [])) ∧
        (2147483648 ≤ n →
          e.setLocation s =
            ({ e with m_locationId := (n : Int) - 4294967296 }, []))) ∧
      (e.setLocation "system" = ({ e with m_locationId := -1 }, [])) ∧
      ((qtStringStartsWith s "camera-" = false ∨
          qStringToUInt (qtStringMid s 7) = none) → s ≠ "system" →
        e.setLocation s = ({ e with m_locationId := -1 },
          ["Invalid event location " ++ s])) := by
  refine ⟨?_, ?_, ?_⟩
  · intro hsw n hn
    constructor
    · intro hlt
      simp [EventData.setLocation, hsw, hn, uintAsInt, hlt]
    · intro hge
      have hnlt : ¬(n < 2147483648) := by omega
      simp [EventData.setLocation, hsw, hn, uintAsInt, hnlt]
  · have hs : qtStringStartsWith "system" "camera-" = false := by decide
    simp [EventData.setLocation, hs]
  · rintro (hsw | hn) hne
    · simp [EventData.setLocation, hsw, hne]
    · by_cases hsw : qtStringStartsWith s "camera-" = true
      · simp [EventData.setLocation, hsw, hn]
      · rw [Bool.not_eq_true] at hsw
        simp [EventData.setLocation, hsw, hne]

/-- Witness for claim C3 at concrete locations: a well-formed camera id, a
plus-signed camera id, a camera id that wraps into the negative int range,
the system literal, a malformed camera suffix, and an arbitrary invalid
string. -/
theorem setLocation_parses_camera_and_system_witness :
    initEvent.setLocation "camera-12" =
        ({ initEvent with m_locationId := (12 : Int) }, []) ∧
      initEvent.setLocation "camera-+12" =
        ({ initEvent with m_locationId := (12 : Int) }, []) ∧
      initEvent.setLocation "camera-4294967295" =
        ({ initEvent with m_locationId := ((4294967295 : Nat) : Int) - 4294967296 }, []) ∧
      initEvent.setLocation "system" = ({ initEvent with m_locationId := -1 }, []) ∧
      initEvent.setLocation "camera-12x" = ({ initEvent with m_locationId := -1 },
        ["Invalid event location " ++ "camera-12x"]) ∧
      initEvent.setLocation "bogus" = ({ initEvent with m_locationId := -1 },
        ["Invalid event location " ++ "bogus"]) := by
  have h12 := setLocation_parses_camera_and_system initEvent "camera-12"
  have hp12 := setLocation_parses_camera_and_system initEvent "camera-+12"
  have hw := setLocation_parses_camera_and_system initEvent "camera-4294967295"
  have hx := setLocation_parses_camera_and_system initEvent "camera-12x"
  have hb := setLocation_parses_camera_and_system initEvent "bogus"
  exact ⟨(h12.1 (by decide) 12 (by decide)).1 (by decide),
    (hp12.1 (by decide) 12 (by decide)).1 (by decide),
    (hw.1 (by decide) 4294967295 (by decide)).2 (by decide),
    h12.2.1,
    hx.2.2 (Or.inr (by decide)) (by decide),
    hb.2.2 (Or.inl (by decide)) (by decide)⟩

/-- Claim C7, counterexample: setUtcStartDate stores its argument without
converting or checking it, so an argument carrying a local time spec is
stored as-is and the stored UTC start date does not have UTC time spec (the
Q_ASSERT in serverStartDate would fire on it). -/
theorem setUtcStartDate_keeps_nonUtc_spec :
    ((EventData.setUtcStartDate 0 initEvent
        { wallSecs := 0, spec := QtTimeSpec.LocalTime }).m_utcStartDate).timeSpec ≠
      QtTimeSpec.UTC := by
  decide

/-- Claim C7 as amended: setUtcStartDate stores the argument unchanged as
the UTC start date, so the stored value has UTC time spec exactly when the
argument does (the function itself does not enforce the UTC invariant, it
relies on its callers); the stored local start date equals the argument
converted to local time, and always carries the local time spec. -/
theorem setUtcStartDate_stores_argument (tz : Int) (e : EventData) (d : QDateTime) :
    (EventData.setUtcStartDate tz e d).m_utcStartDate = d ∧
      (EventData.setUtcStartDate tz e d).m_localStartDate = d.toLocalTime tz ∧
      ((EventData.setUtcStartDate tz e d).m_localStartDate).timeSpec =
        QtTimeSpec.LocalTime ∧
      (d.timeSpec = QtTimeSpec.UTC →
        ((EventData.setUtcStartDate tz e d).m_utcStartDate).timeSpec =
          QtTimeSpec.UTC) := by
  exact ⟨rfl, rfl, rfl, fun h => h⟩

/-- Witness for claim C7 at a concrete UTC-spec argument. -/
theorem setUtcStartDate_stores_argument_witness :
    (EventData.setUtcStartDate 3600 initEvent
        { wallSecs := 100, spec := QtTimeSpec.UTC }).m_utcStartDate =
        { wallSecs := 100, spec := QtTimeSpec.UTC } ∧
      (EventData.setUtcStartDate 3600 initEvent
        { wallSecs := 100, spec := QtTimeSpec.UTC }).m_localStartDate =
        QDateTime.toLocalTime 3600 { wallSecs := 100, spec := QtTimeSpec.UTC } ∧
      ((EventData.setUtcStartDate 3600 initEvent
        { wallSecs := 100, spec := QtTimeSpec.UTC }).m_utcStartDate).timeSpec =
        QtTimeSpec.UTC := by
  have h := setUtcStartDate_stores_argument 3600 initEvent
    { wallSecs := 100, spec := QtTimeSpec.UTC }
  exact ⟨h.1, h.2.1, h.2.2.2 rfl⟩

/-- Claim C8: for every event whose UTC start date has UTC time spec,
serverStartDate shifts the displayed date and time forward by
serverDateTzOffsetMins()*60 seconds and stamps the result with that same
number of seconds as its UTC offset; consequently the result denotes the
same absolute instant as the stored UTC start date. -/
theorem serverStartDate_reconstructs_server_view (e : EventData)
    (h : e.m_utcStartDate.timeSpec = QtTimeSpec.UTC) :
    (e.serverStartDate).wallSecs =
        e.m_utcStartDate.wallSecs + e.serverDateTzOffsetMins * 60 ∧
      (e.serverStartDate).timeSpec =
        QtTimeSpec.OffsetFromUTC (e.serverDateTzOffsetMins * 60) ∧
      ∀ tz : Int, (e.serverStartDate).toEpochSecs tz =
        e.m_utcStartDate.toEpochSecs tz := by
  have hspec : e.m_utcStartDate.spec = QtTimeSpec.UTC := h
  refine ⟨rfl, rfl, ?_⟩
  intro tz
  simp [EventData.serverStartDate, QDateTime.toEpochSecs, QDateTime.addSecs,
    QDateTime.setUtcOffset, QtTimeSpec.utcOffset, hspec]

/-- Witness for claim C8 at a concrete event with a 90-minute server
timezone offset. -/
theorem serverStartDate_reconstructs_server_view_witness :
    ((initEvent.setServerDateTzOffsetMins 90).serverStartDate).wallSecs =
        (initEvent.setServerDateTzOffsetMins 90).m_utcStartDate.wallSecs +
          (initEvent.setServerDateTzOffsetMins 90).serverDateTzOffsetMins * 60 ∧
      ((initEvent.setServerDateTzOffsetMins 90).serverStartDate).timeSpec =
        QtTimeSpec.OffsetFromUTC
          ((initEvent.setServerDateTzOffsetMins 90).serverDateTzOffsetMins * 60) ∧
      ((initEvent.setServerDateTzOffsetMins 90).serverStartDate).toEpochSecs 3600 =
        (initEvent.setServerDateTzOffsetMins 90).m_utcStartDate.toEpochSecs 3600 := by
  have h := serverStartDate_reconstructs_server_view
    (initEvent.setServerDateTzOffsetMins 90) (by decide)
  exact ⟨h.1, h.2.1, h.2.2 3600⟩

/-- Claim C10: for every non-in-progress duration, uiDuration emits at most
two time-unit terms (a rendered duration with k unit terms contains exactly
k - 1 comma separators, so the comma count is at most 1); in particular a
duration of 1 day, 1 hour, 1 minute and 1 second formats as the two-term
string dropping the lower-order units. -/
theorem uiDuration_at_most_two_unit_terms :
    (∀ e : EventData, e.inProgress = false → commaCount e.uiDuration ≤ 1) ∧
      (eventWithDuration 90061).uiDuration = "1 day, 1 hour" := by
  constructor
  · intro e h
    have hne : ¬(e.inProgress = true) := by simp [h]
    unfold EventData.uiDuration
    rw [if_neg hne]
    by_cases hday : max 1 e.durationInSeconds ≥ (60*60*24)
    · rw [if_pos hday]
      refine commaCount_hourPart_one _ _ ?_ (qtStringIsEmpty_durationWord _ _ _)
      rw [commaCount_durationWord]
      decide
    · rw [if_neg hday]
      exact commaCount_hourPart_empty _
  · decide

/-- Witness for claim C10 at the concrete duration of 1 day, 1 hour,
1 minute and 1 second. -/
theorem uiDuration_at_most_two_unit_terms_witness :
    commaCount (eventWithDuration 90061).uiDuration ≤ 1 ∧
      (eventWithDuration 90061).uiDuration = "1 day, 1 hour" :=
  ⟨uiDuration_at_most_two_unit_terms.1 (eventWithDuration 90061) (by decide),
    uiDuration_at_most_two_unit_terms.2⟩
